import Mathlib

/-!
Shallow embedding of the group-chat GraphQL resolver module
(`groupResolvers`: queries `getGroupMessages`, `searchGroups`; mutations
`createGroup`, `sendGroupMessage`, `addGroupMembers`, `removeGroupMember`,
`leaveGroup`, `updateGroup`, `deleteGroup`, `makeGroupAdmin`,
`markGroupMessageAsRead`).

Modelling conventions:
* Document identifiers are strings; mongoose ObjectId arrays compare
  elements by value (mongoose casts in `includes`/`indexOf`), so membership
  tests are plain string equality.
* `findById` results are `Option` values; each operation takes the fetched
  document and returns its outcome together with the post-state of the
  stored document(s).
* A thrown resolver error is `Except.error msg`; the five membership
  mutations catch every error and return the structured
  `{success, message, group}` shape (`MutResult`), so they are total.
* `new Date()` timestamps are a `now : Nat` parameter; the real-time
  notifier (`io.to(...).emit`) is fire-and-forget and has no effect on the
  stored state, so it is not modelled.
-/

namespace GroupChat

abbrev UserId := String

/-- Denormalized last-message summary stored on a group. -/
structure LastMessage where
  content : String
  sender : UserId
  timestamp : Nat
deriving DecidableEq

/-- A `Group` document. Schema fields referenced by the resolver module;
timestamps are modelled by `updatedAt`. -/
structure Group where
  name : String
  description : String
  groupImage : String
  members : List UserId
  admins : List UserId
  createdBy : UserId
  isPrivate : Bool
  maxMembers : Nat
  lastMessage : Option LastMessage
  updatedAt : Nat
deriving DecidableEq

/-- One `readBy` entry of a message. -/
structure ReadReceipt where
  user : UserId
  readAt : Nat
deriving DecidableEq

/-- A `GroupMessage` document. `group` is the owning group's identifier. -/
structure GroupMessage where
  group : String
  sender : UserId
  content : Option String
  messageType : String
  media : Option String
  replyTo : Option String
  isDeleted : Bool
  readBy : List ReadReceipt
  createdAt : Nat
deriving DecidableEq

/-- The structured result shape returned by the membership mutations. -/
structure MutResult where
  success : Bool
  message : String
  group : Option Group
deriving DecidableEq

/-- Modelled from the library: `mongoose.Types.ObjectId.isValid` accepts a
24-character hex string or a 12-character string. -/
def isValidObjectId (s : String) : Bool :=
  (s.length = 24 && s.toList.all fun c =>
    c.isDigit || ('a' ≤ c && c ≤ 'f') || ('A' ≤ c && c ≤ 'F'))
  || s.length = 12

/-- JS `String.prototype.trim`: strip leading and trailing whitespace
(computable model over the character list). -/
def jsTrim (s : String) : String :=
  ⟨((s.data.dropWhile Char.isWhitespace).reverse.dropWhile Char.isWhitespace).reverse⟩

/-- JS `[...new Set (l)]`: deduplicate keeping the first occurrence;
`seen` accumulates the elements already emitted. -/
def setSpread (seen : List UserId) : List UserId → List UserId
  | [] => []
  | a :: l => if a ∈ seen then setSpread seen l else a :: setSpread (a :: seen) l

/-- Input object of the `createGroup` mutation. `groupImage`, when present,
stands for the URL produced by the (external) image upload pipeline. -/
structure CreateGroupInput where
  name : String
  description : Option String
  groupImage : Option String
  members : List UserId
  isPrivate : Option Bool
  maxMembers : Option Nat

/-- `createGroup` resolver: validates authentication, non-empty name,
non-empty member list and well-formed member ids, then creates the group
with `members = [...new Set([user.id, ...input.members])]` and
`admins = [user.id]`. Every failure is rethrown with the
`Error creating group:` prefix. -/
def createGroup (user? : Option UserId) (input : CreateGroupInput) (now : Nat) :
    Except String Group :=
  match user? with
  | none => .error "Error creating group: Authentication required"
  | some uid =>
    if input.name = "" || (jsTrim input.name).length = 0 then
      .error "Error creating group: Group name is required"
    else if input.members = [] then
      .error "Error creating group: At least one member is required"
    else if (input.members.filter fun id => !isValidObjectId id) ≠ [] then
      .error "Error creating group: Invalid member IDs provided"
    else
      .ok
        { name := input.name
          description := input.description.getD ""
          groupImage := input.groupImage.getD ""
          members := setSpread [] (uid :: input.members)
          admins := [uid]
          createdBy := uid
          isPrivate := input.isPrivate.getD false
          maxMembers :=
            match input.maxMembers with
            | some m => if m = 0 then 256 else m
            | none => 256
          lastMessage := none
          updatedAt := now }

/-- JS `content || "Sent a <messageType>"`: the fallback fires when
`content` is null/undefined or the empty string (both falsy). -/
def lastMessageContent (content : Option String) (messageType : String) : String :=
  match content with
  | some c => if c = "" then "Sent a " ++ messageType else c
  | none => "Sent a " ++ messageType

/-- The `GroupMessage` document created by `sendGroupMessage`; `isDeleted`
and `readBy` take their schema defaults (`false`, `[]`). -/
def newMessageDoc (groupId : String) (uid : UserId) (content : Option String)
    (messageType : String) (media replyTo : Option String) (now : Nat) :
    GroupMessage :=
  { group := groupId
    sender := uid
    content := content
    messageType := messageType
    media := media
    replyTo := replyTo
    isDeleted := false
    readBy := []
    createdAt := now }

/-- `sendGroupMessage` resolver. Returns the thrown-or-created message, the
post-state of the group document, and the post-state of the message
collection. A missing group and a non-member sender raise the same error;
on success the group's `lastMessage` summary and `updatedAt` are
overwritten. -/
def sendGroupMessage (group? : Option Group) (msgs : List GroupMessage)
    (user? : Option UserId) (groupId : String) (content : Option String)
    (messageType : String) (media replyTo : Option String) (now : Nat) :
    Except String GroupMessage × Option Group × List GroupMessage :=
  match user? with
  | none => (.error "Error sending group message: Authentication required", group?, msgs)
  | some uid =>
    match group? with
    | none =>
      (.error "Error sending group message: You are not a member of this group", none, msgs)
    | some g =>
      if uid ∈ g.members then
        let m := newMessageDoc groupId uid content messageType media replyTo now
        let g2 := { g with
          lastMessage := some
            { content := lastMessageContent content messageType
              sender := uid
              timestamp := now }
          updatedAt := now }
        (.ok m, some g2, msgs ++ [m])
      else
        (.error "Error sending group message: You are not a member of this group",
          some g, msgs)

/-- `addGroupMembers` resolver. The capacity check compares
`group.members.length + memberIds.length` (before removing duplicates or
already-present ids) against `maxMembers`; the appended list filters out
only ids already in `group.members`. All failures are caught and returned
as a `MutResult`. -/
def addGroupMembers (group? : Option Group) (user? : Option UserId)
    (memberIds : List UserId) : MutResult × Option Group :=
  match user? with
  | none => (⟨false, "Authentication required", none⟩, group?)
  | some uid =>
    match group? with
    | none => (⟨false, "Group not found", none⟩, none)
    | some g =>
      if uid ∉ g.admins then
        (⟨false, "Only admins can add members", none⟩, some g)
      else if g.maxMembers < g.members.length + memberIds.length then
        (⟨false, "Cannot exceed maximum members limit of " ++ toString g.maxMembers,
          none⟩, some g)
      else
        let uniqueNewMembers := memberIds.filter fun id => id ∉ g.members
        let g2 := { g with members := g.members ++ uniqueNewMembers }
        (⟨true, toString uniqueNewMembers.length ++ " members added successfully",
          some g2⟩, some g2)

/-- `removeGroupMember` resolver: allowed for an admin actor or
self-removal, never for the creator; removes the member from both
`members` and `admins`. Failures are returned as a `MutResult`. -/
def removeGroupMember (group? : Option Group) (user? : Option UserId)
    (memberId : UserId) : MutResult × Option Group :=
  match user? with
  | none => (⟨false, "Authentication required", none⟩, group?)
  | some uid =>
    match group? with
    | none => (⟨false, "Group not found", none⟩, none)
    | some g =>
      if uid ∉ g.admins && uid ≠ memberId then
        (⟨false, "Only admins can remove members", none⟩, some g)
      else if g.createdBy = memberId then
        (⟨false, "Cannot remove group creator", none⟩, some g)
      else
        let g2 := { g with
          members := g.members.filter fun id => id ≠ memberId
          admins := g.admins.filter fun id => id ≠ memberId }
        (⟨true, "Member removed successfully", some g2⟩, some g2)

/-- `leaveGroup` resolver: the creator cannot leave; anyone else is removed
from both `members` and `admins`. Failures are returned as a `MutResult`. -/
def leaveGroup (group? : Option Group) (user? : Option UserId) :
    MutResult × Option Group :=
  match user? with
  | none => (⟨false, "Authentication required", none⟩, group?)
  | some uid =>
    match group? with
    | none => (⟨false, "Group not found", none⟩, none)
    | some g =>
      if g.createdBy = uid then
        (⟨false, "Group creator cannot leave. Transfer ownership first or delete the group.",
          none⟩, some g)
      else
        let g2 := { g with
          members := g.members.filter fun id => id ≠ uid
          admins := g.admins.filter fun id => id ≠ uid }
        (⟨true, "Left group successfully", some g2⟩, some g2)

/-- `updateGroup` resolver: admin-only partial update of name, description
and image. Failures are rethrown with the `Error updating group:` prefix
(this mutation does NOT return the structured shape). -/
def updateGroup (group? : Option Group) (user? : Option UserId)
    (name? description? groupImage? : Option String) :
    Except String Group × Option Group :=
  match user? with
  | none => (.error "Error updating group: Authentication required", group?)
  | some uid =>
    match group? with
    | none => (.error "Error updating group: Group not found", none)
    | some g =>
      if uid ∈ g.admins then
        let g2 := { g with
          name := name?.getD g.name
          description := description?.getD g.description
          groupImage := groupImage?.getD g.groupImage }
        (.ok g2, some g2)
      else
        (.error "Error updating group: Only admins can update group", some g)

/-- `deleteGroup` resolver: creator-only; deletes every message of the
group, then the group itself. Failures are returned as a `MutResult`. -/
def deleteGroup (group? : Option Group) (msgs : List GroupMessage)
    (user? : Option UserId) (groupId : String) :
    MutResult × Option Group × List GroupMessage :=
  match user? with
  | none => (⟨false, "Authentication required", none⟩, group?, msgs)
  | some uid =>
    match group? with
    | none => (⟨false, "Group not found", none⟩, none, msgs)
    | some g =>
      if g.createdBy ≠ uid then
        (⟨false, "Only group creator can delete the group", none⟩, some g, msgs)
      else
        (⟨true, "Group deleted successfully", none⟩, none,
          msgs.filter fun m => m.group ≠ groupId)

/-- `makeGroupAdmin` resolver: admin-only promotion of an existing member;
a no-op (still success) when the target is already an admin. Failures are
returned as a `MutResult`. -/
def makeGroupAdmin (group? : Option Group) (user? : Option UserId)
    (memberId : UserId) : MutResult × Option Group :=
  match user? with
  | none => (⟨false, "Authentication required", none⟩, group?)
  | some uid =>
    match group? with
    | none => (⟨false, "Group not found", none⟩, none)
    | some g =>
      if uid ∉ g.admins then
        (⟨false, "Only admins can promote members", none⟩, some g)
      else if memberId ∉ g.members then
        (⟨false, "User is not a member of this group", none⟩, some g)
      else
        let g2 := if memberId ∈ g.admins then g
          else { g with admins := g.admins ++ [memberId] }
        (⟨true, "Member promoted to admin successfully", some g2⟩, some g2)

/-- `markGroupMessageAsRead` resolver: appends a `{user, readAt}` receipt
unless one for this user already exists. Failures are rethrown with the
`Error marking message as read:` prefix. -/
def markGroupMessageAsRead (message? : Option GroupMessage)
    (user? : Option UserId) (now : Nat) :
    Except String GroupMessage × Option GroupMessage :=
  match user? with
  | none => (.error "Error marking message as read: Authentication required", message?)
  | some uid =>
    match message? with
    | none => (.error "Error marking message as read: Message not found", none)
    | some m =>
      if m.readBy.any fun r => r.user = uid then
        (.ok m, some m)
      else
        let m2 := { m with readBy := m.readBy ++ [⟨uid, now⟩] }
        (.ok m2, some m2)

/-- Stable insertion into a newest-first list, modelling the store's
`sort({createdAt: -1})`. -/
def insertByNewest (m : GroupMessage) : List GroupMessage → List GroupMessage
  | [] => [m]
  | a :: l =>
    if m.createdAt ≤ a.createdAt then a :: insertByNewest m l else m :: a :: l

/-- Sort a message list newest-first by `createdAt`. -/
def sortByNewest : List GroupMessage → List GroupMessage
  | [] => []
  | a :: l => insertByNewest a (sortByNewest l)

/-- `getGroupMessages` query: non-deleted messages of the group, queried
newest-first, paginated by `skip offset` then `limit`, and finally reversed
into chronological order. -/
def getGroupMessages (msgs : List GroupMessage) (groupId : String)
    (limit offset : Nat) : List GroupMessage :=
  (((sortByNewest (msgs.filter fun m => m.group = groupId && !m.isDeleted)).drop
    offset).take limit).reverse

/-- The `getGroupMessages` GraphQL field: receives the request context
(`ctx`, carrying the caller identity when authenticated) but never reads
it; `limit` defaults to 50 and `offset` to 0. -/
def getGroupMessagesResolver (_ctx : Option UserId) (msgs : List GroupMessage)
    (groupId : String) (limit? offset? : Option Nat) : List GroupMessage :=
  getGroupMessages msgs groupId (limit?.getD 50) (offset?.getD 0)

/-- `searchGroups` query: public groups whose name or description matches
the query (the store's case-insensitive `$regex` test is the parameter
`matchesQ`), truncated by the store's `.limit`: a limit of 0 means no
limit (every matching document is returned), otherwise at most `limit`
results. -/
def searchGroups (matchesQ : String → String → Bool) (groups : List Group)
    (query : String) (limit : Nat) : List Group :=
  let matched := groups.filter fun g =>
    !g.isPrivate && (matchesQ query g.name || matchesQ query g.description)
  if limit = 0 then matched else matched.take limit

/-- The `searchGroups` GraphQL field: `limit` defaults to 10. -/
def searchGroupsResolver (matchesQ : String → String → Bool)
    (groups : List Group) (query : String) (limit? : Option Nat) : List Group :=
  searchGroups matchesQ groups query (limit?.getD 10)

/-- Newest-first order on messages. -/
def newestFirst (a b : GroupMessage) : Prop := b.createdAt ≤ a.createdAt
/-! ### Concrete documents used in examples and witnesses -/

/-- A sample non-deleted text message of group `"g"` with `createdAt = i`. -/
def exM (i : Nat) : GroupMessage :=
  { group := "g", sender := "s", content := some ("m" ++ toString i),
    messageType := "text", media := none, replyTo := none,
    isDeleted := false, readBy := [], createdAt := i }

/-- The five-message store M1 (oldest) … M5 (newest) of the paging example. -/
def exStore : List GroupMessage := [exM 1, exM 2, exM 3, exM 4, exM 5]

/-- A sample public group named `"Team"`. -/
def exPublicGroup : Group :=
  { name := "Team", description := "demo", groupImage := "",
    members := ["u1", "u2"], admins := ["u1"], createdBy := "u1",
    isPrivate := false, maxMembers := 256, lastMessage := none, updatedAt := 0 }
/-- A group with two members and `maxMembers = 3`, used to exhibit the
pre-deduplication capacity check. -/
def capGroup : Group :=
  { name := "cap", description := "", groupImage := "",
    members := ["a", "b"], admins := ["a"], createdBy := "a",
    isPrivate := false, maxMembers := 3, lastMessage := none, updatedAt := 0 }
/-- Admin set is included in the member set. -/
def adminsSubset (g : Group) : Prop := ∀ x ∈ g.admins, x ∈ g.members

/-- `adminsSubset` lifted to the optional post-state of a stored group. -/
def adminsSubsetOpt : Option Group → Prop
  | none => True
  | some g => adminsSubset g
/-- Input of the C6 witness: name `"Team"`, one well-formed member id. -/
def exInput : CreateGroupInput :=
  { name := "Team", description := none, groupImage := none,
    members := ["aaaabbbbccccddddeeeeffff"], isPrivate := none,
    maxMembers := none }
/-- Number of read-receipt entries of a given user on a message. -/
def readCount (m : GroupMessage) (uid : UserId) : Nat :=
  (m.readBy.filter fun r => r.user = uid).length
/-- Message states reachable in this module: created by a successful
`sendGroupMessage`, then mutated only by `markGroupMessageAsRead`. -/
inductive ReachableMsg : GroupMessage → Prop where
  | sent (g : Group) (msgs : List GroupMessage) (uid : UserId) (gid : String)
      (content : Option String) (mt : String) (md rt : Option String)
      (now : Nat) (m : GroupMessage) (g2 : Option Group)
      (msgs2 : List GroupMessage)
      (h : sendGroupMessage (some g) msgs (some uid) gid content mt md rt now
            = (.ok m, g2, msgs2)) : ReachableMsg m
  | marked (m : GroupMessage) (uid : UserId) (now : Nat) (m2 : GroupMessage)
      (s2 : Option GroupMessage) (hr : ReachableMsg m)
      (h : markGroupMessageAsRead (some m) (some uid) now = (.ok m2, s2)) :
      ReachableMsg m2

/-! ### Helper lemmas -/

theorem mem_setSpread {x : UserId} :
    ∀ (seen l : List UserId), x ∈ setSpread seen l ↔ x ∈ l ∧ x ∉ seen := by
  intro seen l
  induction l generalizing seen with
  | nil => simp [setSpread]
  | cons a l ih =>
    rw [setSpread]
    by_cases ha : a ∈ seen
    · rw [if_pos ha, ih]
      simp only [List.mem_cons]
      constructor
      · rintro ⟨hx, hs⟩
        exact ⟨Or.inr hx, hs⟩
      · rintro ⟨rfl | hx, hs⟩
        · exact absurd ha hs
        · exact ⟨hx, hs⟩
    · rw [if_neg ha]
      simp only [List.mem_cons, ih, List.mem_cons, not_or]
      constructor
      · rintro (rfl | ⟨hx, -, hs⟩)
        · exact ⟨Or.inl rfl, ha⟩
        · exact ⟨Or.inr hx, hs⟩
      · rintro ⟨rfl | hx, hs⟩
        · exact Or.inl rfl
        · rcases eq_or_ne x a with rfl | hxa
          · exact Or.inl rfl
          · exact Or.inr ⟨hx, hxa, hs⟩

theorem nodup_setSpread : ∀ (seen l : List UserId), (setSpread seen l).Nodup := by
  intro seen l
  induction l generalizing seen with
  | nil => simp [setSpread]
  | cons a l ih =>
    rw [setSpread]
    by_cases ha : a ∈ seen
    · rw [if_pos ha]; exact ih seen
    · rw [if_neg ha]
      refine List.Nodup.cons ?_ (ih (a :: seen))
      intro hmem
      exact ((mem_setSpread _ _).1 hmem).2 (List.mem_cons_self a seen)

theorem mem_insertByNewest {x m : GroupMessage} :
    ∀ {l : List GroupMessage}, x ∈ insertByNewest m l ↔ x = m ∨ x ∈ l := by
  intro l
  induction l with
  | nil => simp [insertByNewest]
  | cons a l ih =>
    rw [insertByNewest]
    by_cases h : m.createdAt ≤ a.createdAt
    · rw [if_pos h]
      simp only [List.mem_cons, ih]
      tauto
    · rw [if_neg h]
      simp [List.mem_cons]

theorem pairwise_insertByNewest {m : GroupMessage} :
    ∀ {l : List GroupMessage}, l.Pairwise newestFirst →
      (insertByNewest m l).Pairwise newestFirst := by
  intro l hl
  induction l with
  | nil => simp [insertByNewest, newestFirst]
  | cons a l ih =>
    rcases List.pairwise_cons.1 hl with ⟨ha, hl'⟩
    rw [insertByNewest]
    by_cases h : m.createdAt ≤ a.createdAt
    · rw [if_pos h]
      refine List.pairwise_cons.2 ⟨?_, ih hl'⟩
      intro y hy
      rcases mem_insertByNewest.1 hy with rfl | hy
      · exact h
      · exact ha y hy
    · rw [if_neg h]
      refine List.pairwise_cons.2 ⟨?_, hl⟩
      intro y hy
      have hma : a.createdAt ≤ m.createdAt := Nat.le_of_not_le h
      rcases List.mem_cons.1 hy with rfl | hy
      · exact hma
      · exact Nat.le_trans (ha y hy) hma

theorem pairwise_sortByNewest :
    ∀ (l : List GroupMessage), (sortByNewest l).Pairwise newestFirst := by
  intro l
  induction l with
  | nil => simp [sortByNewest]
  | cons a l ih => exact pairwise_insertByNewest ih

theorem mem_sortByNewest {x : GroupMessage} :
    ∀ {l : List GroupMessage}, x ∈ sortByNewest l ↔ x ∈ l := by
  intro l
  induction l with
  | nil => simp [sortByNewest]
  | cons a l ih =>
    rw [sortByNewest, mem_insertByNewest]
    simp [ih]

/-- Every element of a `getGroupMessages` page comes from the filtered,
sorted store. -/
theorem mem_getGroupMessages {m : GroupMessage} {msgs : List GroupMessage}
    {groupId : String} {limit offset : Nat}
    (h : m ∈ getGroupMessages msgs groupId limit offset) :
    m ∈ msgs.filter fun x => x.group = groupId && !x.isDeleted := by
  rw [getGroupMessages, List.mem_reverse] at h
  exact mem_sortByNewest.1 (List.Sublist.mem h
    ((List.take_sublist _ _).trans (List.drop_sublist _ _)))

/-! ### Claims -/

/-- Claim C3: `getGroupMessages` returns only messages of the requested
group whose soft-delete flag is false, in oldest-to-newest order within the
page, the page being selected newest-first: on a group whose non-deleted
messages are M1 (oldest) … M5 (newest), `limit = 2, offset = 0` yields
`[M4, M5]`. -/
theorem getGroupMessages_page_spec :
    (∀ (msgs : List GroupMessage) (groupId : String) (limit offset : Nat)
       (m : GroupMessage), m ∈ getGroupMessages msgs groupId limit offset →
         m.group = groupId ∧ m.isDeleted = false)
    ∧ (∀ (msgs : List GroupMessage) (groupId : String) (limit offset : Nat),
        (getGroupMessages msgs groupId limit offset).Pairwise
          fun a b => a.createdAt ≤ b.createdAt)
    ∧ getGroupMessages exStore "g" 2 0 = [exM 4, exM 5] := by
  refine ⟨?_, ?_, by decide⟩
  · intro msgs groupId limit offset m h
    have hm := mem_getGroupMessages h
    rw [List.mem_filter] at hm
    have := hm.2
    simp only [Bool.and_eq_true, Bool.not_eq_true', decide_eq_true_eq] at this
    exact this
  · intro msgs groupId limit offset
    rw [getGroupMessages, List.pairwise_reverse]
    exact ((pairwise_sortByNewest _).sublist
      ((List.take_sublist _ _).trans (List.drop_sublist _ _))).imp fun h => h

/-- Witness for C3 at a concrete input: M4 belongs to the page for group
`"g"` with `limit = 2, offset = 0`, so it is a non-deleted message of
`"g"`. -/
theorem getGroupMessages_page_spec_w :
    exM 4 ∈ getGroupMessages exStore "g" 2 0
    ∧ (exM 4).group = "g" ∧ (exM 4).isDeleted = false :=
  ⟨by decide, getGroupMessages_page_spec.1 exStore "g" 2 0 (exM 4) (by decide)⟩

/-- Counterexample to claim C9: the store's `.limit(0)` means no limit,
so `searchGroups` with `limit = 0` returns every matching public group —
here one group, which is more than `limit` — refuting the unconditional
at-most-`limit` bound. -/
theorem searchGroups_limit_zero_cex :
    ¬ (searchGroups (fun q s => q == s) [exPublicGroup] "Team" 0).length ≤ 0 := by
  decide

/-- Claim C9 (amended): `searchGroups` returns only groups whose privacy
flag is false and whose name or description matches the query — no
private group is ever returned, whatever the match predicate says — and
returns at most `limit` groups when `limit` is nonzero (`limit` defaults
to 10 when the argument is omitted); `limit = 0` disables the bound and
returns every matching public group. -/
theorem searchGroups_public_matches_amended :
    (∀ (matchesQ : String → String → Bool) (groups : List Group)
       (query : String) (limit : Nat) (g : Group),
        g ∈ searchGroups matchesQ groups query limit →
          g.isPrivate = false
          ∧ (matchesQ query g.name = true ∨ matchesQ query g.description = true))
    ∧ (∀ (matchesQ : String → String → Bool) (groups : List Group)
        (query : String) (limit : Nat), limit ≠ 0 →
          (searchGroups matchesQ groups query limit).length ≤ limit)
    ∧ (∀ (matchesQ : String → String → Bool) (groups : List Group)
        (query : String),
          searchGroups matchesQ groups query 0
            = groups.filter fun g =>
                !g.isPrivate
                && (matchesQ query g.name || matchesQ query g.description))
    ∧ (∀ (matchesQ : String → String → Bool) (groups : List Group)
        (query : String),
          searchGroupsResolver matchesQ groups query none
            = searchGroups matchesQ groups query 10) := by
  refine ⟨?_, ?_, ?_, fun _ _ _ => rfl⟩
  · intro matchesQ groups query limit g hg
    have hmem : g ∈ groups.filter fun g =>
        !g.isPrivate && (matchesQ query g.name || matchesQ query g.description) := by
      by_cases h0 : limit = 0
      · simpa [searchGroups, h0] using hg
      · exact List.mem_of_mem_take (by simpa [searchGroups, h0] using hg)
    rw [List.mem_filter] at hmem
    have := hmem.2
    simp only [Bool.and_eq_true, Bool.not_eq_true', Bool.or_eq_true] at this
    exact this
  · intro matchesQ groups query limit h0
    rw [searchGroups]
    simp only [h0, if_false]
    exact (List.length_take _ _).trans_le (Nat.min_le_left _ _)
  · intro matchesQ groups query
    simp [searchGroups]

/-- Witness for the amended C9 at a concrete input: a public group named
`"Team"` is found by an equality matcher, and the theorem yields its
privacy flag and match. -/
theorem searchGroups_public_matches_amended_w :
    exPublicGroup ∈ searchGroups (fun q s => q == s) [exPublicGroup] "Team" 10
    ∧ exPublicGroup.isPrivate = false
    ∧ ((fun (q s : String) => q == s) "Team" exPublicGroup.name = true
       ∨ (fun (q s : String) => q == s) "Team" exPublicGroup.description = true) :=
  ⟨by decide, searchGroups_public_matches_amended.1 (fun q s => q == s)
    [exPublicGroup] "Team" 10 exPublicGroup (by decide)⟩

/-- Counterexample to claim C1: `updateGroup` is listed among the
operations whose authorization failures come back as a structured
`{success:false, message, group:null}` result, but on a concrete group
whose actor `"u2"` is a member yet not an admin it throws
(`Except.error`) instead. -/
theorem updateGroup_auth_failure_throws_cex :
    updateGroup (some exPublicGroup) (some "u2") (some "New") none none
      = (.error "Error updating group: Only admins can update group",
         some exPublicGroup) := rfl

/-- Claim C1 (amended): only the five membership mutations
(`addGroupMembers`, `removeGroupMember`, `leaveGroup`, `makeGroupAdmin`,
`deleteGroup`) return authorization/business-rule failures as a structured
`{success:false, message, group:null}` result; `updateGroup`,
`sendGroupMessage` and `markGroupMessageAsRead` propagate failure by
throwing, like creation and query paths. -/
theorem mutation_failure_channels :
    (∀ (g : Group) (uid : UserId) (ms : List UserId), uid ∉ g.admins →
        (addGroupMembers (some g) (some uid) ms).1
          = ⟨false, "Only admins can add members", none⟩)
    ∧ (∀ (g : Group) (uid mid : UserId), uid ∉ g.admins → uid ≠ mid →
        (removeGroupMember (some g) (some uid) mid).1
          = ⟨false, "Only admins can remove members", none⟩)
    ∧ (∀ (g : Group) (uid : UserId), g.createdBy = uid →
        (leaveGroup (some g) (some uid)).1
          = ⟨false,
              "Group creator cannot leave. Transfer ownership first or delete the group.",
              none⟩)
    ∧ (∀ (g : Group) (uid mid : UserId), uid ∉ g.admins →
        (makeGroupAdmin (some g) (some uid) mid).1
          = ⟨false, "Only admins can promote members", none⟩)
    ∧ (∀ (g : Group) (msgs : List GroupMessage) (uid : UserId) (gid : String),
        g.createdBy ≠ uid →
        (deleteGroup (some g) msgs (some uid) gid).1
          = ⟨false, "Only group creator can delete the group", none⟩)
    ∧ (∀ (g : Group) (uid : UserId) (n d i : Option String), uid ∉ g.admins →
        (updateGroup (some g) (some uid) n d i).1
          = .error "Error updating group: Only admins can update group")
    ∧ (∀ (g : Group) (msgs : List GroupMessage) (uid : UserId) (gid : String)
        (c : Option String) (mt : String) (md rt : Option String) (now : Nat),
        uid ∉ g.members →
        (sendGroupMessage (some g) msgs (some uid) gid c mt md rt now).1
          = .error "Error sending group message: You are not a member of this group")
    ∧ (∀ (uid : UserId) (now : Nat),
        (markGroupMessageAsRead none (some uid) now).1
          = .error "Error marking message as read: Message not found") := by
  refine ⟨?_, ?_, ?_, ?_, ?_, ?_, ?_, fun _ _ => rfl⟩
  · intro g uid ms h
    simp [addGroupMembers, h]
  · intro g uid mid h1 h2
    simp [removeGroupMember, h1, h2]
  · intro g uid h
    simp [leaveGroup, h]
  · intro g uid mid h
    simp [makeGroupAdmin, h]
  · intro g msgs uid gid h
    simp [deleteGroup, h]
  · intro g uid n d i h
    simp [updateGroup, h]
  · intro g msgs uid gid c mt md rt now h
    simp [sendGroupMessage, h]

/-- Witness for the amended C1 at a concrete input: the non-admin member
`"u2"` gets a structured failure from `addGroupMembers`. -/
theorem mutation_failure_channels_w :
    "u2" ∉ exPublicGroup.admins
    ∧ (addGroupMembers (some exPublicGroup) (some "u2") []).1
        = ⟨false, "Only admins can add members", none⟩ :=
  ⟨by decide, mutation_failure_channels.1 exPublicGroup "u2" [] (by decide)⟩

/-- Counterexample to claim C2: the admin `"a"` adds `["b", "c"]` to a
group with members `["a", "b"]` and `maxMembers = 3`; the resulting member
count (3, since `"b"` is already a member) would not exceed the limit, yet
the call fails, because the capacity check counts the raw argument list. -/
theorem addGroupMembers_capacity_cex :
    (addGroupMembers (some capGroup) (some "a") ["b", "c"]).1.success = false
    ∧ (capGroup.members
        ++ (["b", "c"].filter fun id => id ∉ capGroup.members)).length
        ≤ capGroup.maxMembers := by decide

/-- Successful-branch equation of `addGroupMembers`: admin actor, capacity
check passed. -/
theorem addGroupMembers_add_ok (g : Group) (uid : UserId)
    (memberIds : List UserId) (hadm : uid ∈ g.admins)
    (hle : g.members.length + memberIds.length ≤ g.maxMembers) :
    addGroupMembers (some g) (some uid) memberIds
      = (⟨true,
          toString (memberIds.filter fun id => id ∉ g.members).length
            ++ " members added successfully",
          some { g with
            members := g.members ++ memberIds.filter fun id => id ∉ g.members }⟩,
         some { g with
           members := g.members ++ memberIds.filter fun id => id ∉ g.members }) := by
  have h2 : ¬ g.maxMembers < g.members.length + memberIds.length := Nat.not_lt.2 hle
  simp [addGroupMembers, hadm, h2]

/-- Capacity-failure equation of `addGroupMembers`: admin actor, raw count
over the limit. -/
theorem addGroupMembers_cap_fail (g : Group) (uid : UserId)
    (memberIds : List UserId) (hadm : uid ∈ g.admins)
    (hlt : g.maxMembers < g.members.length + memberIds.length) :
    addGroupMembers (some g) (some uid) memberIds
      = (⟨false,
          "Cannot exceed maximum members limit of " ++ toString g.maxMembers,
          none⟩, some g) := by
  simp [addGroupMembers, hadm, hlt]

/-- Claim C2 (amended): `addGroupMembers` by an admin appends exactly the
supplied identifiers not already members, but its capacity check compares
`|members| + |memberIds|` — counting duplicates and already-present ids —
against `maxMembers`: it succeeds when that sum is within the limit and
fails with the capacity error when that sum exceeds it; after a successful
call `|members| ≤ maxMembers` still holds. -/
theorem addGroupMembers_amended :
    ∀ (g : Group) (uid : UserId) (memberIds : List UserId), uid ∈ g.admins →
      (g.members.length + memberIds.length ≤ g.maxMembers →
        addGroupMembers (some g) (some uid) memberIds
          = (⟨true,
              toString (memberIds.filter fun id => id ∉ g.members).length
                ++ " members added successfully",
              some { g with
                members := g.members ++ memberIds.filter fun id => id ∉ g.members }⟩,
             some { g with
               members := g.members ++ memberIds.filter fun id => id ∉ g.members }))
      ∧ (g.maxMembers < g.members.length + memberIds.length →
          addGroupMembers (some g) (some uid) memberIds
            = (⟨false,
                "Cannot exceed maximum members limit of " ++ toString g.maxMembers,
                none⟩, some g))
      ∧ ((addGroupMembers (some g) (some uid) memberIds).1.success = true →
          ∀ g', (addGroupMembers (some g) (some uid) memberIds).2 = some g' →
            g'.members.length ≤ g.maxMembers) := by
  intro g uid memberIds hadm
  refine ⟨addGroupMembers_add_ok g uid memberIds hadm,
    addGroupMembers_cap_fail g uid memberIds hadm, ?_⟩
  intro hsucc g' hg'
  by_cases hle : g.members.length + memberIds.length ≤ g.maxMembers
  · rw [addGroupMembers_add_ok g uid memberIds hadm hle] at hg'
    obtain rfl := Option.some.inj hg'
    calc (g.members ++ memberIds.filter fun id => id ∉ g.members).length
        = g.members.length + (memberIds.filter fun id => id ∉ g.members).length :=
          List.length_append _ _
      _ ≤ g.members.length + memberIds.length :=
          Nat.add_le_add_left (List.length_filter_le _ _) _
      _ ≤ g.maxMembers := hle
  · rw [addGroupMembers_cap_fail g uid memberIds hadm (Nat.lt_of_not_le hle)] at hsucc
    exact absurd hsucc (by simp)

/-- Witness for the amended C2 at a concrete input: the admin `"a"` adds
`["c"]` to a 2-member group with `maxMembers = 3` and the call succeeds
with the appended member list. -/
theorem addGroupMembers_amended_w :
    "a" ∈ capGroup.admins
    ∧ capGroup.members.length + (["c"] : List UserId).length ≤ capGroup.maxMembers
    ∧ addGroupMembers (some capGroup) (some "a") ["c"]
        = (⟨true,
            toString ((["c"] : List UserId).filter fun id => id ∉ capGroup.members).length
              ++ " members added successfully",
            some { capGroup with
              members := capGroup.members
                ++ (["c"] : List UserId).filter fun id => id ∉ capGroup.members }⟩,
           some { capGroup with
             members := capGroup.members
               ++ (["c"] : List UserId).filter fun id => id ∉ capGroup.members }) :=
  ⟨by decide, by decide,
    (addGroupMembers_amended capGroup "a" ["c"] (by decide)).1 (by decide)⟩

/-- Claim C4: starting from any group whose admin set is included in its
member set, every mutation (`createGroup`, `addGroupMembers`,
`removeGroupMember`, `leaveGroup`, `makeGroupAdmin`, `updateGroup`,
`deleteGroup`, `sendGroupMessage`) leaves a post-state — when the group
still exists — whose admin set is still included in its member set. -/
theorem admins_subset_members_invariant :
    (∀ (user? : Option UserId) (input : CreateGroupInput) (now : Nat) (g : Group),
        createGroup user? input now = .ok g → adminsSubset g)
    ∧ (∀ (g : Group) (user? : Option UserId) (ms : List UserId), adminsSubset g →
        adminsSubsetOpt (addGroupMembers (some g) user? ms).2)
    ∧ (∀ (g : Group) (user? : Option UserId) (mid : UserId), adminsSubset g →
        adminsSubsetOpt (removeGroupMember (some g) user? mid).2)
    ∧ (∀ (g : Group) (user? : Option UserId), adminsSubset g →
        adminsSubsetOpt (leaveGroup (some g) user?).2)
    ∧ (∀ (g : Group) (user? : Option UserId) (mid : UserId), adminsSubset g →
        adminsSubsetOpt (makeGroupAdmin (some g) user? mid).2)
    ∧ (∀ (g : Group) (user? : Option UserId) (n d i : Option String), adminsSubset g →
        adminsSubsetOpt (updateGroup (some g) user? n d i).2)
    ∧ (∀ (g : Group) (msgs : List GroupMessage) (user? : Option UserId)
        (gid : String), adminsSubset g →
        adminsSubsetOpt (deleteGroup (some g) msgs user? gid).2.1)
    ∧ (∀ (g : Group) (msgs : List GroupMessage) (user? : Option UserId)
        (gid : String) (c : Option String) (mt : String) (md rt : Option String)
        (now : Nat), adminsSubset g →
        adminsSubsetOpt (sendGroupMessage (some g) msgs user? gid c mt md rt now).2.1) := by
  refine ⟨?_, ?_, ?_, ?_, ?_, ?_, ?_, ?_⟩
  · intro user? input now g h
    cases user? with
    | none => exact absurd h (by simp [createGroup])
    | some uid =>
      rw [createGroup] at h
      split_ifs at h
      obtain rfl := Except.ok.inj h
      intro x hx
      have hx' : x = uid := by simpa using hx
      rw [hx']
      exact (mem_setSpread [] (uid :: input.members)).2 ⟨List.mem_cons_self _ _, by simp⟩
  · intro g user? ms hg
    cases user? with
    | none => exact hg
    | some uid =>
      rw [addGroupMembers]
      split_ifs
      all_goals try exact hg
      intro x hx
      exact List.mem_append_left _ (hg x hx)
  · intro g user? mid hg
    cases user? with
    | none => exact hg
    | some uid =>
      rw [removeGroupMember]
      split_ifs
      all_goals try exact hg
      intro x hx
      rw [List.mem_filter] at hx ⊢
      exact ⟨hg x hx.1, hx.2⟩
  · intro g user? hg
    cases user? with
    | none => exact hg
    | some uid =>
      rw [leaveGroup]
      split_ifs
      all_goals try exact hg
      intro x hx
      rw [List.mem_filter] at hx ⊢
      exact ⟨hg x hx.1, hx.2⟩
  · intro g user? mid hg
    cases user? with
    | none => exact hg
    | some uid =>
      rw [makeGroupAdmin]
      split_ifs
      all_goals try exact hg
      intro x hx
      rcases List.mem_append.1 hx with hx | hx
      · exact hg x hx
      · obtain rfl : x = mid := by simpa using hx
        assumption
  · intro g user? n d i hg
    cases user? with
    | none => exact hg
    | some uid =>
      rw [updateGroup]
      split_ifs
      all_goals exact hg
  · intro g msgs user? gid hg
    cases user? with
    | none => exact hg
    | some uid =>
      rw [deleteGroup]
      split_ifs
      all_goals try exact hg
      trivial
  · intro g msgs user? gid c mt md rt now hg
    cases user? with
    | none => exact hg
    | some uid =>
      rw [sendGroupMessage]
      split_ifs
      all_goals exact hg

/-- Witness for C4 at a concrete input: promoting `"u2"` in a group whose
only admin is the creator keeps the admin set inside the member set. -/
theorem admins_subset_members_invariant_w :
    adminsSubset exPublicGroup
    ∧ adminsSubsetOpt (makeGroupAdmin (some exPublicGroup) (some "u1") "u2").2 := by
  have h : adminsSubset exPublicGroup := by
    unfold adminsSubset exPublicGroup
    decide
  exact ⟨h,
    admins_subset_members_invariant.2.2.2.2.1 exPublicGroup (some "u1") "u2" h⟩

/-- Authorization-failure equation of `removeGroupMember`: the actor is
neither an admin nor the target. -/
theorem removeGroupMember_auth_fail (g : Group) (uid mid : UserId)
    (hA : uid ∉ g.admins) (hB : uid ≠ mid) :
    removeGroupMember (some g) (some uid) mid
      = (⟨false, "Only admins can remove members", none⟩, some g) := by
  simp [removeGroupMember, hA, hB]

/-- Creator-protection equation of `removeGroupMember` for an authorized
actor. -/
theorem removeGroupMember_creator_fail (g : Group) (uid mid : UserId)
    (hA : uid ∈ g.admins ∨ uid = mid) (hC : g.createdBy = mid) :
    removeGroupMember (some g) (some uid) mid
      = (⟨false, "Cannot remove group creator", none⟩, some g) := by
  rcases hA with hA | hA
  · simp [removeGroupMember, hA, hC]
  · simp [removeGroupMember, hA, hC]

/-- Success equation of `removeGroupMember`. -/
theorem removeGroupMember_ok (g : Group) (uid mid : UserId)
    (hA : uid ∈ g.admins ∨ uid = mid) (hC : g.createdBy ≠ mid) :
    removeGroupMember (some g) (some uid) mid
      = (⟨true, "Member removed successfully",
          some { g with members := g.members.filter fun id => id ≠ mid,
                        admins := g.admins.filter fun id => id ≠ mid }⟩,
         some { g with members := g.members.filter fun id => id ≠ mid,
                       admins := g.admins.filter fun id => id ≠ mid }) := by
  rcases hA with hA | hA
  · simp [removeGroupMember, hA, hC]
  · simp [removeGroupMember, hA, hC]

/-- Claim C5: removal targeting the creator always fails and leaves the
group unchanged — with the `Cannot remove group creator` message when the
actor is authorized — `leaveGroup` by the creator fails leaving the group
unchanged, and a successful `removeGroupMember` implies the actor was an
admin or removing themselves and strips the target from both the member
and admin sets. -/
theorem creator_removal_spec :
    (∀ (g : Group) (uid mid : UserId), g.createdBy = mid →
        (removeGroupMember (some g) (some uid) mid).1.success = false
        ∧ (removeGroupMember (some g) (some uid) mid).2 = some g)
    ∧ (∀ (g : Group) (uid mid : UserId), g.createdBy = mid →
        (uid ∈ g.admins ∨ uid = mid) →
        (removeGroupMember (some g) (some uid) mid).1.message
          = "Cannot remove group creator")
    ∧ (∀ (g : Group) (uid : UserId), g.createdBy = uid →
        leaveGroup (some g) (some uid)
          = (⟨false,
              "Group creator cannot leave. Transfer ownership first or delete the group.",
              none⟩, some g))
    ∧ (∀ (g : Group) (uid mid : UserId),
        (removeGroupMember (some g) (some uid) mid).1.success = true →
        (uid ∈ g.admins ∨ uid = mid)
        ∧ ∃ g', (removeGroupMember (some g) (some uid) mid).2 = some g'
            ∧ mid ∉ g'.members ∧ mid ∉ g'.admins) := by
  refine ⟨?_, ?_, ?_, ?_⟩
  · intro g uid mid hC
    by_cases hA : uid ∈ g.admins ∨ uid = mid
    · rw [removeGroupMember_creator_fail g uid mid hA hC]
      exact ⟨rfl, rfl⟩
    · push_neg at hA
      rw [removeGroupMember_auth_fail g uid mid hA.1 hA.2]
      exact ⟨rfl, rfl⟩
  · intro g uid mid hC hA
    rw [removeGroupMember_creator_fail g uid mid hA hC]
  · intro g uid hC
    simp [leaveGroup, hC]
  · intro g uid mid hs
    by_cases hA : uid ∈ g.admins ∨ uid = mid
    · by_cases hC : g.createdBy = mid
      · rw [removeGroupMember_creator_fail g uid mid hA hC] at hs
        exact absurd hs (by simp)
      · refine ⟨hA, ?_⟩
        rw [removeGroupMember_ok g uid mid hA hC]
        exact ⟨_, rfl, by simp, by simp⟩
    · push_neg at hA
      rw [removeGroupMember_auth_fail g uid mid hA.1 hA.2] at hs
      exact absurd hs (by simp)

/-- Witness for C5 at a concrete input: the creator `"u1"` cannot leave
their own group and the state is unchanged. -/
theorem creator_removal_spec_w :
    exPublicGroup.createdBy = "u1"
    ∧ leaveGroup (some exPublicGroup) (some "u1")
        = (⟨false,
            "Group creator cannot leave. Transfer ownership first or delete the group.",
            none⟩, some exPublicGroup) :=
  ⟨rfl, creator_removal_spec.2.2.1 exPublicGroup "u1" rfl⟩

/-- A string of length zero is the empty string. -/
theorem eq_empty_of_length_eq_zero {s : String} (h : s.length = 0) : s = "" := by
  cases s with
  | mk data =>
    cases data with
    | nil => rfl
    | cons a l => simp [String.length] at h

/-- Claim C6: `createGroup` fails with a validation error on an
empty-after-trim name, an empty member list, or a malformed member id, and
otherwise produces a group whose member set is the deduplicated union of
the creator and the supplied members, whose admin set is exactly the
creator, and whose `createdBy` is the creator. -/
theorem createGroup_spec :
    ∀ (uid : UserId) (input : CreateGroupInput) (now : Nat),
      (jsTrim input.name = "" →
        createGroup (some uid) input now
          = .error "Error creating group: Group name is required")
      ∧ (jsTrim input.name ≠ "" → input.members = [] →
          createGroup (some uid) input now
            = .error "Error creating group: At least one member is required")
      ∧ (jsTrim input.name ≠ "" → input.members ≠ [] →
          (∃ id ∈ input.members, isValidObjectId id = false) →
          createGroup (some uid) input now
            = .error "Error creating group: Invalid member IDs provided")
      ∧ (jsTrim input.name ≠ "" → input.members ≠ [] →
          (∀ id ∈ input.members, isValidObjectId id = true) →
          ∃ g, createGroup (some uid) input now = .ok g
            ∧ g.members.Nodup
            ∧ (∀ x, x ∈ g.members ↔ x = uid ∨ x ∈ input.members)
            ∧ g.admins = [uid]
            ∧ g.createdBy = uid) := by
  intro uid input now
  refine ⟨?_, ?_, ?_, ?_⟩
  · intro h
    have hlen : (jsTrim input.name).length = 0 := by rw [h]; decide
    simp [createGroup, hlen]
  · intro hname hmem
    have h1 : ¬ input.name = "" := fun he => hname (by rw [he]; decide)
    have h2 : ¬ (jsTrim input.name).length = 0 :=
      fun hl => hname (eq_empty_of_length_eq_zero hl)
    simp [createGroup, h1, h2, hmem]
  · intro hname hmem hbad
    have h1 : ¬ input.name = "" := fun he => hname (by rw [he]; decide)
    have h2 : ¬ (jsTrim input.name).length = 0 :=
      fun hl => hname (eq_empty_of_length_eq_zero hl)
    have h3 : (input.members.filter fun id => !isValidObjectId id) ≠ [] := by
      rcases hbad with ⟨x, hx, hv⟩
      exact List.ne_nil_of_mem (List.mem_filter.2 ⟨hx, by simp [hv]⟩)
    simp [createGroup, h1, h2, hmem, h3]
  · intro hname hmem hgood
    have h1 : ¬ input.name = "" := fun he => hname (by rw [he]; decide)
    have h2 : ¬ (jsTrim input.name).length = 0 :=
      fun hl => hname (eq_empty_of_length_eq_zero hl)
    have h3 : (input.members.filter fun id => !isValidObjectId id) = [] := by
      rw [List.filter_eq_nil_iff]
      intro a ha
      simp [hgood a ha]
    refine ⟨{ name := input.name, description := input.description.getD "",
              groupImage := input.groupImage.getD "",
              members := setSpread [] (uid :: input.members),
              admins := [uid], createdBy := uid,
              isPrivate := input.isPrivate.getD false,
              maxMembers := (match input.maxMembers with
                | some m => if m = 0 then 256 else m
                | none => 256),
              lastMessage := none, updatedAt := now },
           ?_, nodup_setSpread _ _, ?_, rfl, rfl⟩
    · simp [createGroup, h1, h2, hmem, h3]
    · intro x
      rw [mem_setSpread]
      simp [List.mem_cons]

/-- Witness for C6 at a concrete input: creating `"Team"` with one valid
member id succeeds with the creator as sole admin. -/
theorem createGroup_spec_w :
    jsTrim exInput.name ≠ ""
    ∧ exInput.members ≠ []
    ∧ (∀ id ∈ exInput.members, isValidObjectId id = true)
    ∧ ∃ g, createGroup (some "u1") exInput 0 = .ok g
        ∧ g.members.Nodup
        ∧ (∀ x, x ∈ g.members ↔ x = "u1" ∨ x ∈ exInput.members)
        ∧ g.admins = ["u1"]
        ∧ g.createdBy = "u1" :=
  ⟨by decide, by decide, by decide,
    (createGroup_spec "u1" exInput 0).2.2.2 (by decide) (by decide) (by decide)⟩

/-- Claim C7: `sendGroupMessage` by a non-member fails with the membership
error and creates no message record; by a member it creates the message
and overwrites the group's denormalized last-message summary with the
content (falling back to `Sent a <type>`), the sender and the current
time. -/
theorem sendGroupMessage_spec :
    ∀ (g : Group) (msgs : List GroupMessage) (uid : UserId) (gid : String)
      (content : Option String) (mt : String) (md rt : Option String) (now : Nat),
      (uid ∉ g.members →
        sendGroupMessage (some g) msgs (some uid) gid content mt md rt now
          = (.error "Error sending group message: You are not a member of this group",
             some g, msgs))
      ∧ (uid ∈ g.members →
          sendGroupMessage (some g) msgs (some uid) gid content mt md rt now
            = (.ok (newMessageDoc gid uid content mt md rt now),
               some { g with
                 lastMessage := some
                   { content := lastMessageContent content mt,
                     sender := uid, timestamp := now },
                 updatedAt := now },
               msgs ++ [newMessageDoc gid uid content mt md rt now])) := by
  intro g msgs uid gid content mt md rt now
  constructor
  · intro h
    simp [sendGroupMessage, h]
  · intro h
    simp [sendGroupMessage, h, newMessageDoc]

/-- Witness for C7 at a concrete input: the non-member `"zz"` cannot post
to the sample group and the message store is unchanged. -/
theorem sendGroupMessage_spec_w :
    "zz" ∉ exPublicGroup.members
    ∧ sendGroupMessage (some exPublicGroup) [] (some "zz") "g" (some "hi")
        "text" none none 7
      = (.error "Error sending group message: You are not a member of this group",
         some exPublicGroup, []) :=
  ⟨by decide,
    (sendGroupMessage_spec exPublicGroup [] "zz" "g" (some "hi") "text"
      none none 7).1 (by decide)⟩

/-- Already-read equation of `markGroupMessageAsRead`. -/
theorem markGroupMessageAsRead_noop (m : GroupMessage) (uid : UserId) (t : Nat)
    (h : (m.readBy.any fun r => r.user = uid) = true) :
    markGroupMessageAsRead (some m) (some uid) t = (.ok m, some m) := by
  simp [markGroupMessageAsRead, h]

/-- First-read equation of `markGroupMessageAsRead`. -/
theorem markGroupMessageAsRead_push (m : GroupMessage) (uid : UserId) (t : Nat)
    (h : ¬ (m.readBy.any fun r => r.user = uid) = true) :
    markGroupMessageAsRead (some m) (some uid) t
      = (.ok { m with readBy := m.readBy ++ [⟨uid, t⟩] },
         some { m with readBy := m.readBy ++ [⟨uid, t⟩] }) := by
  simp [markGroupMessageAsRead, h]

/-- Claim C8: `markGroupMessageAsRead` is idempotent per reader — two
calls by the same reader leave exactly one receipt for that reader — in
every reachable message state each user appears at most once in the
read-receipt list, and a missing message yields the not-found error. -/
theorem markGroupMessageAsRead_spec :
    (∀ (m : GroupMessage) (uid : UserId) (t₁ t₂ : Nat),
        readCount m uid ≤ 1 →
        ((markGroupMessageAsRead
            ((markGroupMessageAsRead (some m) (some uid) t₁).2)
            (some uid) t₂).2.map fun x => readCount x uid) = some 1)
    ∧ (∀ m : GroupMessage, ReachableMsg m →
        (m.readBy.map ReadReceipt.user).Nodup)
    ∧ (∀ (uid : UserId) (t : Nat),
        markGroupMessageAsRead none (some uid) t
          = (.error "Error marking message as read: Message not found", none)) := by
  refine ⟨?_, ?_, fun _ _ => rfl⟩
  · intro m uid t₁ t₂ hle
    by_cases h : (m.readBy.any fun r => r.user = uid) = true
    · have hpos : 1 ≤ readCount m uid := by
        rcases List.any_eq_true.1 h with ⟨r, hr, hru⟩
        exact List.length_pos.2
          (List.ne_nil_of_mem (List.mem_filter.2 ⟨hr, hru⟩))
      rw [markGroupMessageAsRead_noop m uid t₁ h,
        markGroupMessageAsRead_noop m uid t₂ h]
      simp [Nat.le_antisymm hle hpos]
    · have hno : ∀ r ∈ m.readBy, ¬ r.user = uid := by
        intro r hr hru
        exact h (List.any_eq_true.2 ⟨r, hr, by simp [hru]⟩)
      have hnil : (m.readBy.filter fun r => r.user = uid) = [] := by
        rw [List.filter_eq_nil_iff]
        intro r hr
        simp [hno r hr]
      have hany2 : (((m.readBy ++ [⟨uid, t₁⟩] : List ReadReceipt)).any
          fun r => r.user = uid) = true := by
        simp
      rw [markGroupMessageAsRead_push m uid t₁ h]
      rw [markGroupMessageAsRead_noop { m with readBy := m.readBy ++ [⟨uid, t₁⟩] }
        uid t₂ hany2]
      simp [readCount, List.filter_append, hnil]
  · intro m hm
    induction hm with
    | sent g msgs uid gid content mt md rt now m g2 msgs2 h =>
      by_cases hmem : uid ∈ g.members
      · have h1 : (Except.ok (newMessageDoc gid uid content mt md rt now) :
            Except String GroupMessage) = Except.ok m := by
          have hfst := congrArg Prod.fst h
          simpa [sendGroupMessage, hmem] using hfst
        obtain rfl := Except.ok.inj h1
        simp [newMessageDoc]
      · exfalso
        have hfst := congrArg Prod.fst h
        simp [sendGroupMessage, hmem] at hfst
    | marked m' uid now m2 s2 hr h ih =>
      by_cases hany : (m'.readBy.any fun r => r.user = uid) = true
      · rw [markGroupMessageAsRead_noop m' uid now hany] at h
        obtain rfl : m' = m2 := Except.ok.inj (congrArg Prod.fst h)
        exact ih
      · rw [markGroupMessageAsRead_push m' uid now hany] at h
        obtain rfl : { m' with readBy := m'.readBy ++ [⟨uid, now⟩] } = m2 :=
          Except.ok.inj (congrArg Prod.fst h)
        have hno : ∀ r ∈ m'.readBy, ¬ r.user = uid := by
          intro r hr hru
          exact hany (List.any_eq_true.2 ⟨r, hr, by simp [hru]⟩)
        show ((m'.readBy ++ ([⟨uid, now⟩] : List ReadReceipt)).map
          ReadReceipt.user).Nodup
        rw [List.map_append, List.nodup_append]
        refine ⟨ih, List.nodup_singleton _, ?_⟩
        intro a ha hb
        simp only [List.map_cons, List.map_nil, List.mem_singleton] at hb
        subst hb
        rcases List.mem_map.1 ha with ⟨r, hr, hru⟩
        exact hno r hr hru

/-- Witness for C8 at a concrete input: marking a fresh message read twice
by `"u"` leaves exactly one receipt for `"u"`. -/
theorem markGroupMessageAsRead_spec_w :
    readCount (exM 1) "u" ≤ 1
    ∧ ((markGroupMessageAsRead
          ((markGroupMessageAsRead (some (exM 1)) (some "u") 5).2)
          (some "u") 6).2.map fun x => readCount x "u") = some 1 :=
  ⟨by decide, markGroupMessageAsRead_spec.1 (exM 1) "u" 5 6 (by decide)⟩

/-- Claim C10: the `getGroupMessages` resolver never reads the request
context, so the returned message list is identical for every caller
identity (authenticated or not) on every store, group and page. -/
theorem getGroupMessages_caller_independent :
    ∀ (ctx₁ ctx₂ : Option UserId) (msgs : List GroupMessage)
      (groupId : String) (limit? offset? : Option Nat),
      getGroupMessagesResolver ctx₁ msgs groupId limit? offset?
        = getGroupMessagesResolver ctx₂ msgs groupId limit? offset? :=
  fun _ _ _ _ _ _ => rfl

end GroupChat
